import Mathlib

/-!
Shallow embedding of the simulation core of src/main.rs (a Suika-style
merge game written against the Bevy engine).

Modelling conventions, fixed once for the whole file:

* f32 values are modelled by real numbers; glam Vec2 becomes the
  two-field structure Vec2 below with componentwise arithmetic,
  length v = Real.sqrt (x^2 + y^2) and normalize v = v / length v,
  matching glam's definitions over the reals.
* Bevy Commands (spawn / despawn calls issued by a system) are deferred:
  they are queued during the tick and materialized only when the command
  queue is applied, which for this app (systems registered in one plain
  tuple, with no ordering constraints and hence no intermediate sync
  points) happens at the end of the FixedUpdate schedule run.  The tick
  function below therefore runs every stage on the pre-merge body list
  and applies despawns and spawns at the very end.  Immediate mutations
  through Mut / ResMut (positions, score, next_id) are modelled as
  direct state updates.
* The systems of the FixedUpdate schedule are composed in their
  registration order from main (input_handler, apply_merges,
  apply_gravity, apply_collisions, apply_constraint, physics_update).
  Bevy gives no ordering guarantee for a plain tuple; the registration
  order is the canonical sequential reading and is also recorded
  syntactically in fixedUpdateSystems for the schedule-level claims.
* Rust panics (out-of-bounds array indexing such as FRUIT_RADII[group+1]
  for group = 10) are modelled by Option: a stage that would panic
  returns none.
* The Fruit component keeps the source fields that take part in the
  simulation: id, group, pos, pos_last, acc, a_pos, a_pos_last, a_acc,
  radius.  The color field only feeds rendering and is dropped.
-/

open scoped Classical

/-- 2D vector over the reals, standing in for glam's Vec2 of f32. -/
structure Vec2 where
  x : ℝ
  y : ℝ

namespace Vec2

instance : Zero Vec2 := ⟨⟨0, 0⟩⟩
instance : Add Vec2 := ⟨fun a b => ⟨a.x + b.x, a.y + b.y⟩⟩
instance : Sub Vec2 := ⟨fun a b => ⟨a.x - b.x, a.y - b.y⟩⟩
instance : Neg Vec2 := ⟨fun a => ⟨-a.x, -a.y⟩⟩
/-- Vec2 * scalar, as used throughout the source (vel * dt etc.). -/
instance : HMul Vec2 ℝ Vec2 := ⟨fun v r => ⟨v.x * r, v.y * r⟩⟩
/-- Vec2 / scalar (r_ij / r_ij_mag, (pos - pos_last) / dt). -/
noncomputable instance : HDiv Vec2 ℝ Vec2 := ⟨fun v r => ⟨v.x / r, v.y / r⟩⟩

/-- glam's Vec2::length: Euclidean norm. -/
noncomputable def length (v : Vec2) : ℝ := Real.sqrt (v.x ^ 2 + v.y ^ 2)

/-- glam's Vec2::normalize: the vector divided by its length. -/
noncomputable def normalize (v : Vec2) : Vec2 := v / v.length

end Vec2

/-! Constants of src/main.rs (only those read by the simulation core). -/

def PLAYER_SPEED : ℝ := 600
def GRAVITY : ℝ := 20 * 100
def WALL_BOUNCE_CONST : ℝ := 0.4
def POS_RESPONSE_CONST : ℝ := 1.0
def VEL_RESPONSE_CONST : ℝ := 0.01
def LINEAR_FRICTION_CONST : ℝ := 0.95
def SPAWN_INTERVAL : ℝ := 0.5
def MAX_VEL : ℝ := 800
noncomputable def LEFT_WALL : ℝ := -540 / 2
noncomputable def RIGHT_WALL : ℝ := 540 / 2
noncomputable def BOTTOM_WALL : ℝ := -700 / 2
noncomputable def TOP_WALL : ℝ := 500 / 2
def WALL_THICKNESS : ℝ := 10

def FRUIT_N : ℕ := 11

/-- FRUIT_RADII from the source; indexing out of range is a Rust panic,
so lookups that the source performs with [] are modelled with get?. -/
def FRUIT_RADII : List ℝ :=
  [20, 25, 35, 40, 50, 60, 75, 95, 105, 115, 125]

def FRUIT_HUE : List ℝ :=
  [0, 10, 20, 30, 40, 50, 60, 70, 80, 90, 100]

/-- FRUIT_SCORE; the last entry is 0 with the source comment
"Cant combine two watermelons". -/
def FRUIT_SCORE : List ℕ :=
  [1, 3, 6, 10, 15, 21, 28, 36, 45, 55, 0]

/-- std::f32::consts::FRAC_PI_4, the default orientation of spawned fruit. -/
noncomputable def FRAC_PI_4 : ℝ := Real.pi / 4

/-- The Fruit component.  The color field is render-only and omitted. -/
structure Fruit where
  id : ℕ
  group : ℕ
  pos : Vec2
  pos_last : Vec2
  acc : Vec2
  a_pos : ℝ
  a_pos_last : ℝ
  a_acc : ℝ
  radius : ℝ

instance : Inhabited Fruit := ⟨⟨0, 0, 0, 0, 0, 0, 0, 0, 0⟩⟩

namespace Fruit

/-- Velocity is derived from the position history: (pos - pos_last) / dt. -/
noncomputable def get_vel (f : Fruit) (dt : ℝ) : Vec2 := (f.pos - f.pos_last) / dt

/-- Rewrites pos_last so that the derived velocity becomes new_velocity. -/
def set_vel (f : Fruit) (dt : ℝ) (new_velocity : Vec2) : Fruit :=
  { f with pos_last := f.pos - new_velocity * dt }

/-- Shifts pos_last so that the derived velocity grows by inc_velocity. -/
def inc_vel (f : Fruit) (dt : ℝ) (inc_velocity : Vec2) : Fruit :=
  { f with pos_last := f.pos_last - inc_velocity * dt }

end Fruit

/-- The i ascending, then j ascending from i+1, pair traversal of the
nested loops in apply_merges and apply_collisions. -/
def pairList (n : ℕ) : List (ℕ × ℕ) :=
  (List.range n).flatMap fun i =>
    ((List.range n).filter fun j => decide (i < j)).map fun j => (i, j)

/-- apply_gravity: accel.y -= GRAVITY for every fruit. -/
def apply_gravity (fruits : List Fruit) : List Fruit :=
  fruits.map fun f => { f with acc := ⟨f.acc.x, f.acc.y - GRAVITY⟩ }

/-- The deferred Commands plus immediate ResMut/Mut effects produced by
one apply_merges pass: despawn commands (indices into the snapshot the
system iterated), spawn commands, the score increment and the advanced
next_id of the FruitIterator. -/
structure MergeOut where
  despawns : List ℕ
  spawns : List Fruit
  scoreDelta : ℕ
  nextId : ℕ

/-- One iteration of the pair loop of apply_merges (source lines 418-464).
none models the Rust panic on an out-of-range FRUIT_SCORE / FRUIT_RADII
index (the latter happens for group+1 = 11, i.e. two merging watermelons). -/
noncomputable def merge_pair (dt : ℝ) (fruits : List Fruit) (acc : MergeOut)
    (ij : ℕ × ℕ) : Option MergeOut :=
  let fi := fruits.getD ij.1 default
  let fj := fruits.getD ij.2 default
  if fi.group = fj.group then
    let r_ij := fj.pos - fi.pos
    let r_ij_mag := r_ij.length
    let min_dist := fj.radius + fi.radius
    if r_ij_mag < min_dist then do
      let sc ← FRUIT_SCORE.get? fi.group
      let rad ← FRUIT_RADII.get? (fi.group + 1)
      let cm_ij := (fj.pos + fi.pos) / (2 : ℝ)
      let vm_ij := (fj.get_vel dt + fi.get_vel dt) / (2 : ℝ)
      let newFruit : Fruit :=
        { id := acc.nextId, group := fi.group + 1, pos := cm_ij,
          pos_last := cm_ij - vm_ij * dt, acc := 0, a_pos := FRAC_PI_4,
          a_pos_last := FRAC_PI_4, a_acc := 0, radius := rad }
      some { despawns := acc.despawns ++ [ij.1, ij.2],
             spawns := acc.spawns ++ [newFruit],
             scoreDelta := acc.scoreDelta + sc,
             nextId := acc.nextId + 1 }
    else some acc
  else some acc

/-- apply_merges: scans all pairs of the snapshot (positions frozen for
the whole pass, despawns and spawns being deferred commands) and
accumulates the commands, score increment and next_id bump. -/
noncomputable def apply_merges (dt : ℝ) (fruits : List Fruit) (nextId : ℕ) :
    Option MergeOut :=
  (pairList fruits.length).foldlM (merge_pair dt fruits) ⟨[], [], 0, nextId⟩

/-- One iteration of the pair loop of apply_collisions (lines 489-517). -/
noncomputable def collide_pair (dt : ℝ) (fruits : List Fruit) (ij : ℕ × ℕ) :
    List Fruit :=
  let fi := fruits.getD ij.1 default
  let fj := fruits.getD ij.2 default
  let r_ij := fj.pos - fi.pos
  let r_ij_mag := r_ij.length
  let min_dist := fj.radius + fi.radius
  if r_ij_mag < min_dist then
    let r_ij_hat := r_ij / r_ij_mag
    let ratio_i := fi.radius / min_dist
    let ratio_j := fj.radius / min_dist
    let delta := 0.5 * POS_RESPONSE_CONST * (r_ij_mag - min_dist)
    let fi1 := { fi with pos := fi.pos + r_ij_hat * (ratio_j * delta) }
    let fj1 := { fj with pos := fj.pos - r_ij_hat * (ratio_i * delta) }
    let fi2 := fi1.inc_vel dt (r_ij_hat * VEL_RESPONSE_CONST * (ratio_j * delta) / dt)
    let fj2 := fj1.inc_vel dt ((-r_ij_hat) * VEL_RESPONSE_CONST * (ratio_i * delta) / dt)
    (fruits.set ij.1 fi2).set ij.2 fj2
  else fruits

/-- apply_collisions: in-place pairwise positional correction plus
velocity nudge, pairs visited i ascending then j ascending, each pair
reading the current (already corrected) state. -/
noncomputable def apply_collisions (dt : ℝ) (fruits : List Fruit) : List Fruit :=
  (pairList fruits.length).foldl (collide_pair dt) fruits

/-- The one and only guard of the collision-resolution branch (source
line 494): the circle overlap test.  The source imposes no lower bound
on the separation distance before dividing r_ij by r_ij_mag. -/
def collision_triggered (fi fj : Fruit) : Prop :=
  (fj.pos - fi.pos).length < fj.radius + fi.radius

/-- One body of the apply_constraint loop (lines 528-559): bottom wall,
then left wall, then right wall, each reading velocity before moving the
position and rewriting it through set_vel afterwards. -/
noncomputable def constrain_fruit (dt : ℝ) (f0 : Fruit) : Fruit :=
  let f1 :=
    if f0.pos.y - f0.radius < BOTTOM_WALL + WALL_THICKNESS / 2 then
      let vel := f0.get_vel dt
      ({ f0 with pos := ⟨f0.pos.x, BOTTOM_WALL + WALL_THICKNESS / 2 + f0.radius⟩ } :
        Fruit).set_vel dt ⟨vel.x * LINEAR_FRICTION_CONST, -vel.y * WALL_BOUNCE_CONST⟩
    else f0
  let f2 :=
    if f1.pos.x - f1.radius < LEFT_WALL + WALL_THICKNESS / 2 then
      let vel := f1.get_vel dt
      ({ f1 with pos := ⟨LEFT_WALL + WALL_THICKNESS / 2 + f1.radius, f1.pos.y⟩ } :
        Fruit).set_vel dt ⟨-vel.x * WALL_BOUNCE_CONST, vel.y * LINEAR_FRICTION_CONST⟩
    else f1
  if RIGHT_WALL - WALL_THICKNESS / 2 < f2.pos.x + f2.radius then
    let vel := f2.get_vel dt
    ({ f2 with pos := ⟨RIGHT_WALL - WALL_THICKNESS / 2 - f2.radius, f2.pos.y⟩ } :
      Fruit).set_vel dt ⟨-vel.x * WALL_BOUNCE_CONST, vel.y * LINEAR_FRICTION_CONST⟩
  else f2

/-- apply_constraint over all fruits (bodies are independent). -/
noncomputable def apply_constraint (dt : ℝ) (fruits : List Fruit) : List Fruit :=
  fruits.map (constrain_fruit dt)

/-- One body of the physics_update loop (lines 573-590): hard speed cap
on the derived velocity, then the Verlet step, then acceleration reset. -/
noncomputable def physics_update_fruit (dt : ℝ) (f0 : Fruit) : Fruit :=
  let vel := f0.get_vel dt
  let f1 := if MAX_VEL ≤ vel.length then f0.set_vel dt (vel.normalize * MAX_VEL) else f0
  let displacement := f1.pos - f1.pos_last
  let a_displacement := f1.a_pos - f1.a_pos_last
  { f1 with pos_last := f1.pos, a_pos_last := f1.a_pos,
            pos := f1.pos + displacement + f1.acc * dt * dt,
            a_pos := f1.a_pos + a_displacement + f1.a_acc * dt * dt,
            acc := 0, a_acc := 0 }

/-- physics_update over all fruits. -/
noncomputable def physics_update (dt : ℝ) (fruits : List Fruit) : List Fruit :=
  fruits.map (physics_update_fruit dt)

/-- The state the FixedUpdate fruit pipeline mutates: the live fruits,
the Scoreboard and the FruitIterator's next_id. -/
structure SimState where
  fruits : List Fruit
  score : ℕ
  nextId : ℕ

/-- End-of-tick command application: despawned rows (indices into the
tick's snapshot; a repeated index is Bevy's warn-and-skip no-op) are
removed and spawned fruits appended. -/
def applyCommands (despawns : List ℕ) (spawns : List Fruit)
    (fruits : List Fruit) : List Fruit :=
  (fruits.enum.filter fun p => decide (p.1 ∉ despawns)).map Prod.snd ++ spawns

/-- One FixedUpdate run of the fruit pipeline, systems composed in their
registration order (apply_merges, apply_gravity, apply_collisions,
apply_constraint, physics_update); spawn/despawn commands are applied at
the end of the run.  input_handler only touches the Spawner when no
fruit is dropped and is modelled separately.  none models a panic. -/
noncomputable def fruitTick (dt : ℝ) (s : SimState) : Option SimState := do
  let m ← apply_merges dt s.fruits s.nextId
  let fruits := physics_update dt (apply_constraint dt
    (apply_collisions dt (apply_gravity s.fruits)))
  some { fruits := applyCommands m.despawns m.spawns fruits,
         score := s.score + m.scoreDelta,
         nextId := m.nextId }

/-- The systems of the FixedUpdate schedule, in the registration order
of the add_systems call in main (lines 214-221).  The tuple carries no
.chain() and hence no ordering constraint; the list records the textual
registration order. -/
inductive SystemTag where
  | inputHandler
  | applyMerges
  | applyGravity
  | applyCollisions
  | applyConstraint
  | physicsUpdate
deriving DecidableEq

def fixedUpdateSystems : List SystemTag :=
  [.inputHandler, .applyMerges, .applyGravity, .applyCollisions,
   .applyConstraint, .physicsUpdate]

/-- The player / spawner singleton as input_handler sees it:
the x translation, the FruitSpawnTimer stopwatch (seconds) and the
FruitIterator fields. -/
structure Spawner where
  x : ℝ
  timer : ℝ
  next_id : ℕ
  next_group : ℕ

/-- The pressed state of the keys input_handler polls. -/
structure KeyInput where
  a : Bool
  d : Bool
  space : Bool

/-- input_handler (source lines 342-380).  The stopwatch is ticked by
the fixed period, then A/D movement, recolor and the Space spawn are all
gated behind the elapsed-cooldown test; afterwards the x translation is
moved and clamped.  reroll stands for the rng value gen_range(0..5)
drawn when a fruit is spawned.  The returned list holds the spawn
commands issued this run; none models a panic on table indexing. -/
noncomputable def input_handler (dt : ℝ) (keys : KeyInput) (reroll : ℕ)
    (player_y : ℝ) (sp : Spawner) : Option (Spawner × List Fruit) := do
  let timer1 := sp.timer + dt
  let elapsed := SPAWN_INTERVAL < timer1
  let direction : ℝ :=
    if elapsed then
      (if keys.a then (-1 : ℝ) else 0) + (if keys.d then (1 : ℝ) else 0)
    else 0
  let _hue ← if elapsed then FRUIT_HUE.get? sp.next_group else some 0
  let (spawns, next_group, next_id, timer2) ←
    if elapsed then
      if keys.space then do
        let rad ← FRUIT_RADII.get? sp.next_group
        let newFruit : Fruit :=
          { id := sp.next_id, group := sp.next_group, pos := ⟨sp.x, player_y⟩,
            pos_last := ⟨sp.x, player_y⟩, acc := 0, a_pos := FRAC_PI_4,
            a_pos_last := FRAC_PI_4, a_acc := 0, radius := rad }
        let _rad2 ← FRUIT_RADII.get? reroll
        some ([newFruit], reroll, sp.next_id + 1, (0 : ℝ))
      else some (([] : List Fruit), sp.next_group, sp.next_id, timer1)
    else some (([] : List Fruit), sp.next_group, sp.next_id, timer1)
  let rad ← FRUIT_RADII.get? next_group
  let new_x := sp.x + direction * PLAYER_SPEED * dt
  let new_x2 :=
    if new_x < LEFT_WALL + rad + WALL_THICKNESS / 2 then
      LEFT_WALL + rad + WALL_THICKNESS / 2
    else if RIGHT_WALL - rad - WALL_THICKNESS / 2 < new_x then
      RIGHT_WALL - rad - WALL_THICKNESS / 2
    else new_x
  some (⟨new_x2, timer2, next_id, next_group⟩, spawns)

/-! Concrete inputs used by witnesses and counterexamples. -/

/-- A rank-0 fruit at rest at the origin, clear of all walls. -/
def c1Fruit1 : Fruit := ⟨0, 0, ⟨0, 0⟩, ⟨0, 0⟩, ⟨0, 0⟩, 0, 0, 0, 20⟩

/-- A rank-0 fruit at rest at x = 10, overlapping c1Fruit1. -/
def c1Fruit2 : Fruit := ⟨1, 0, ⟨10, 0⟩, ⟨10, 0⟩, ⟨0, 0⟩, 0, 0, 0, 20⟩

/-- A top-rank (group 10) watermelon at rest at the origin. -/
def melon1 : Fruit := ⟨0, 10, ⟨0, 0⟩, ⟨0, 0⟩, ⟨0, 0⟩, 0, 0, 0, 125⟩

/-- A second watermelon at x = 100, overlapping melon1 (100 < 250). -/
def melon2 : Fruit := ⟨1, 10, ⟨100, 0⟩, ⟨100, 0⟩, ⟨0, 0⟩, 0, 0, 0, 125⟩

/-- Three rank-0 fruits at x = 0, 10, 20: every pair overlaps. -/
def triple0 : Fruit := ⟨0, 0, ⟨0, 0⟩, ⟨0, 0⟩, ⟨0, 0⟩, 0, 0, 0, 20⟩

def triple1 : Fruit := ⟨1, 0, ⟨10, 0⟩, ⟨10, 0⟩, ⟨0, 0⟩, 0, 0, 0, 20⟩

def triple2 : Fruit := ⟨2, 0, ⟨20, 0⟩, ⟨20, 0⟩, ⟨0, 0⟩, 0, 0, 0, 20⟩

/-- A fruit at (7, 3); a second body at the same point has separation 0. -/
def coincident : Fruit := ⟨0, 3, ⟨7, 3⟩, ⟨7, 3⟩, ⟨0, 0⟩, 0, 0, 0, 20⟩

/-- Vertical stack used for the stage-order demonstration: stackA and
stackB are an overlapping equal-rank merge pair; stackC only overlaps
stackB (distance 44 < 45) and is of a different rank. -/
def stackA : Fruit := ⟨0, 0, ⟨10, 10⟩, ⟨10, 10⟩, ⟨0, 0⟩, 0, 0, 0, 20⟩

def stackB : Fruit := ⟨1, 0, ⟨10, 0⟩, ⟨10, 0⟩, ⟨0, 0⟩, 0, 0, 0, 20⟩

def stackC : Fruit := ⟨2, 1, ⟨10, -44⟩, ⟨10, -44⟩, ⟨0, 0⟩, 0, 0, 0, 25⟩

/-- A fruit at rest that is handed a huge downward acceleration. -/
def hugeAccelFruit : Fruit := ⟨0, 0, ⟨0, 0⟩, ⟨0, 0⟩, ⟨0, -204800⟩, 0, 0, 0, 20⟩

/-- A fruit just above the bottom wall surface (pos.y - radius exactly
at BOTTOM_WALL + WALL_THICKNESS/2) falling at derived speed 700. -/
def fastFallFruit : Fruit := ⟨0, 0, ⟨0, -325⟩, ⟨0, -255⟩, ⟨0, 0⟩, 0, 0, 0, 20⟩

/-- A fruit at rest at the origin with zero acceleration. -/
def restFruit : Fruit := ⟨0, 0, ⟨0, 0⟩, ⟨0, 0⟩, ⟨0, 0⟩, 0, 0, 0, 20⟩

/-- A fruit resting below the bottom wall (pos.y - radius < wall test). -/
def bottomHitFruit : Fruit := ⟨0, 0, ⟨0, -400⟩, ⟨0, -400⟩, ⟨0, 0⟩, 0, 0, 0, 20⟩

/-- A fruit with distinct pos and pos_last, for the accessor laws. -/
def probeFruit : Fruit := ⟨0, 0, ⟨1, 2⟩, ⟨3, 4⟩, ⟨0, 0⟩, 0, 0, 0, 20⟩

/-- A spawner at x = 0 with a just-reset cooldown stopwatch. -/
def idleSpawner : Spawner := ⟨0, 0, 0, 0⟩

namespace Vec2

@[simp] theorem zero_x : (0 : Vec2).x = 0 := rfl
@[simp] theorem zero_y : (0 : Vec2).y = 0 := rfl
@[simp] theorem add_x (a b : Vec2) : (a + b).x = a.x + b.x := rfl
@[simp] theorem add_y (a b : Vec2) : (a + b).y = a.y + b.y := rfl
@[simp] theorem sub_x (a b : Vec2) : (a - b).x = a.x - b.x := rfl
@[simp] theorem sub_y (a b : Vec2) : (a - b).y = a.y - b.y := rfl
@[simp] theorem neg_x (a : Vec2) : (-a).x = -a.x := rfl
@[simp] theorem neg_y (a : Vec2) : (-a).y = -a.y := rfl
@[simp] theorem smul_x (a : Vec2) (r : ℝ) : (a * r).x = a.x * r := rfl
@[simp] theorem smul_y (a : Vec2) (r : ℝ) : (a * r).y = a.y * r := rfl
@[simp] theorem div_x (a : Vec2) (r : ℝ) : (a / r).x = a.x / r := rfl
@[simp] theorem div_y (a : Vec2) (r : ℝ) : (a / r).y = a.y / r := rfl
@[simp] theorem mk_add (a b c d : ℝ) :
    (⟨a, b⟩ : Vec2) + (⟨c, d⟩ : Vec2) = ⟨a + c, b + d⟩ := rfl
@[simp] theorem mk_sub (a b c d : ℝ) :
    (⟨a, b⟩ : Vec2) - (⟨c, d⟩ : Vec2) = ⟨a - c, b - d⟩ := rfl
@[simp] theorem mk_smul (a b r : ℝ) :
    (⟨a, b⟩ : Vec2) * r = (⟨a * r, b * r⟩ : Vec2) := rfl
@[simp] theorem mk_neg (a b : ℝ) : -(⟨a, b⟩ : Vec2) = (⟨-a, -b⟩ : Vec2) := rfl
@[simp] theorem mk_div (a b r : ℝ) :
    (⟨a, b⟩ : Vec2) / r = (⟨a / r, b / r⟩ : Vec2) := rfl

theorem length_nonneg (v : Vec2) : 0 ≤ v.length := Real.sqrt_nonneg _

@[simp] theorem length_mk_zero_right (a : ℝ) : (⟨a, 0⟩ : Vec2).length = |a| := by
  simp [length, Real.sqrt_sq_eq_abs]

@[simp] theorem length_mk_zero_left (b : ℝ) : (⟨0, b⟩ : Vec2).length = |b| := by
  simp [length, Real.sqrt_sq_eq_abs]

theorem length_smul (v : Vec2) (r : ℝ) : (v * r).length = v.length * |r| := by
  unfold length
  have : (v.x * r) ^ 2 + (v.y * r) ^ 2 = (v.x ^ 2 + v.y ^ 2) * r ^ 2 := by ring
  rw [smul_x, smul_y, this, Real.sqrt_mul (by positivity), Real.sqrt_sq_eq_abs]

theorem length_div (v : Vec2) (r : ℝ) : (v / r).length = v.length / |r| := by
  unfold length
  have : (v.x / r) ^ 2 + (v.y / r) ^ 2 = (v.x ^ 2 + v.y ^ 2) / r ^ 2 := by
    field_simp
  rw [div_x, div_y, this, Real.sqrt_div (by positivity), Real.sqrt_sq_eq_abs]

theorem length_add_le (a b : Vec2) : (a + b).length ≤ a.length + b.length := by
  have ha2 : a.length ^ 2 = a.x ^ 2 + a.y ^ 2 := Real.sq_sqrt (by positivity)
  have hb2 : b.length ^ 2 = b.x ^ 2 + b.y ^ 2 := Real.sq_sqrt (by positivity)
  have hA : 0 ≤ a.length := length_nonneg a
  have hB : 0 ≤ b.length := length_nonneg b
  have hcross : a.x * b.x + a.y * b.y ≤ a.length * b.length := by
    by_contra hlt
    push_neg at hlt
    have hpos : 0 < a.x * b.x + a.y * b.y := lt_of_le_of_lt (mul_nonneg hA hB) hlt
    have h1 : (a.length * b.length) ^ 2 < (a.x * b.x + a.y * b.y) ^ 2 := by
      nlinarith [mul_nonneg hA hB]
    have h2 : (a.x * b.x + a.y * b.y) ^ 2 ≤ (a.length * b.length) ^ 2 := by
      have expand : (a.length * b.length) ^ 2
          = (a.x ^ 2 + a.y ^ 2) * (b.x ^ 2 + b.y ^ 2) := by
        rw [mul_pow, ha2, hb2]
      rw [expand]
      nlinarith [sq_nonneg (a.x * b.y - a.y * b.x)]
    linarith
  have hs2 : (a + b).length ^ 2 = (a.x + b.x) ^ 2 + (a.y + b.y) ^ 2 :=
    Real.sq_sqrt (by positivity)
  have hsum : (a + b).length ^ 2 ≤ (a.length + b.length) ^ 2 := by
    nlinarith [hs2, ha2, hb2, hcross]
  by_contra hlt
  push_neg at hlt
  have h1 : 0 ≤ a.length + b.length := add_nonneg hA hB
  nlinarith [length_nonneg (a + b), hsum]

end Vec2

/-! Auxiliary lemmas about the embedding. -/

theorem get?_eq_getD {α : Type} (l : List α) (n : ℕ) (d : α)
    (h : n < l.length) : l.get? n = some (l.getD n d) := by
  induction l generalizing n with
  | nil => simp at h
  | cons x xs ih =>
    cases n with
    | zero => rfl
    | succ m =>
      simp only [List.get?_cons_succ, List.getD_cons_succ]
      exact ih m (by simpa using h)

theorem length_apply_gravity (fruits : List Fruit) :
    (apply_gravity fruits).length = fruits.length := by
  simp [apply_gravity]

theorem length_collide_pair (dt : ℝ) (fruits : List Fruit) (ij : ℕ × ℕ) :
    (collide_pair dt fruits ij).length = fruits.length := by
  unfold collide_pair
  dsimp only
  split
  · simp [List.length_set]
  · rfl

theorem length_foldl_collide (dt : ℝ) (ps : List (ℕ × ℕ)) (fruits : List Fruit) :
    (ps.foldl (collide_pair dt) fruits).length = fruits.length := by
  induction ps generalizing fruits with
  | nil => rfl
  | cons p ps ih => rw [List.foldl_cons, ih, length_collide_pair]

theorem length_apply_collisions (dt : ℝ) (fruits : List Fruit) :
    (apply_collisions dt fruits).length = fruits.length :=
  length_foldl_collide dt _ fruits

theorem length_apply_constraint (dt : ℝ) (fruits : List Fruit) :
    (apply_constraint dt fruits).length = fruits.length := by
  simp [apply_constraint]

theorem length_physics_update (dt : ℝ) (fruits : List Fruit) :
    (physics_update dt fruits).length = fruits.length := by
  simp [physics_update]

/-- C1: for two overlapping bodies of equal rank r with r below the top
rank, one tick despawns both and leaves exactly one new body of rank
r+1 whose pos is the midpoint of the pre-merge positions, whose
pos_last is that midpoint minus the average derived velocity times dt,
with zero acceleration, and the score grows by exactly FRUIT_SCORE[r]. -/
theorem merge_conservation (dt : ℝ) (f1 f2 : Fruit) (score nid : ℕ)
    (hg : f1.group = f2.group) (htop : f1.group < FRUIT_N - 1)
    (hov : (f2.pos - f1.pos).length < f2.radius + f1.radius) :
    fruitTick dt ⟨[f1, f2], score, nid⟩ =
      some ⟨[{ id := nid, group := f1.group + 1,
               pos := (f2.pos + f1.pos) / (2 : ℝ),
               pos_last := (f2.pos + f1.pos) / (2 : ℝ)
                 - ((f2.get_vel dt + f1.get_vel dt) / (2 : ℝ)) * dt,
               acc := 0, a_pos := FRAC_PI_4, a_pos_last := FRAC_PI_4,
               a_acc := 0, radius := FRUIT_RADII.getD (f1.group + 1) 0 }],
            score + FRUIT_SCORE.getD f1.group 0, nid + 1⟩ := by
  have hn : FRUIT_N - 1 = 10 := rfl
  have hg10 : f1.group < 10 := hn ▸ htop
  have hscore : FRUIT_SCORE.get? f1.group
      = some (FRUIT_SCORE.getD f1.group 0) :=
    get?_eq_getD _ _ _ (by simp [FRUIT_SCORE]; omega)
  have hrad : FRUIT_RADII.get? (f1.group + 1)
      = some (FRUIT_RADII.getD (f1.group + 1) 0) :=
    get?_eq_getD _ _ _ (by simp [FRUIT_RADII]; omega)
  have hmerge : apply_merges dt [f1, f2] nid = some
      ⟨[0, 1],
       [⟨nid, f1.group + 1, (f2.pos + f1.pos) / (2 : ℝ),
         (f2.pos + f1.pos) / (2 : ℝ)
           - ((f2.get_vel dt + f1.get_vel dt) / (2 : ℝ)) * dt,
         0, FRAC_PI_4, FRAC_PI_4, 0, FRUIT_RADII.getD (f1.group + 1) 0⟩],
       FRUIT_SCORE.getD f1.group 0, nid + 1⟩ := by
    have hp : pairList ([f1, f2].length) = [(0, 1)] := rfl
    unfold apply_merges
    rw [hp, List.foldlM_cons]
    unfold merge_pair
    dsimp only [List.getD_cons_zero, List.getD_cons_succ]
    rw [if_pos hg, if_pos hov]
    rw [hscore, hrad]
    simp
  unfold fruitTick
  rw [hmerge]
  dsimp only [Option.bind]
  have hlen : (physics_update dt (apply_constraint dt
      (apply_collisions dt (apply_gravity [f1, f2])))).length = 2 := by
    rw [length_physics_update, length_apply_constraint,
      length_apply_collisions, length_apply_gravity]
    rfl
  obtain ⟨a, b, hab⟩ := List.length_eq_two.mp hlen
  rw [hab]
  rfl

/-- C1 witness: the merge-conservation theorem applied to two concrete
overlapping rank-0 fruits at x = 0 and x = 10 with dt = 1. -/
theorem merge_conservation_witness :
    c1Fruit1.group = c1Fruit2.group ∧ c1Fruit1.group < FRUIT_N - 1 ∧
    (c1Fruit2.pos - c1Fruit1.pos).length < c1Fruit2.radius + c1Fruit1.radius ∧
    fruitTick 1 ⟨[c1Fruit1, c1Fruit2], 0, 7⟩ =
      some ⟨[{ id := 7, group := c1Fruit1.group + 1,
               pos := (c1Fruit2.pos + c1Fruit1.pos) / (2 : ℝ),
               pos_last := (c1Fruit2.pos + c1Fruit1.pos) / (2 : ℝ)
                 - ((c1Fruit2.get_vel 1 + c1Fruit1.get_vel 1) / (2 : ℝ)) * (1 : ℝ),
               acc := 0, a_pos := FRAC_PI_4, a_pos_last := FRAC_PI_4,
               a_acc := 0, radius := FRUIT_RADII.getD (c1Fruit1.group + 1) 0 }],
            0 + FRUIT_SCORE.getD c1Fruit1.group 0, 7 + 1⟩ := by
  have hov : (c1Fruit2.pos - c1Fruit1.pos).length
      < c1Fruit2.radius + c1Fruit1.radius := by
    have hsub : c1Fruit2.pos - c1Fruit1.pos = ⟨10, 0⟩ := by
      show (⟨10, 0⟩ : Vec2) - (⟨0, 0⟩ : Vec2) = ⟨10, 0⟩
      simp
    rw [hsub, Vec2.length_mk_zero_right]
    show |(10 : ℝ)| < 20 + 20
    norm_num
  exact ⟨rfl, by decide, hov,
    merge_conservation 1 c1Fruit1 c1Fruit2 0 7 rfl (by decide) hov⟩

/-! Evaluation lemmas for single pair-loop iterations. -/

theorem merge_pair_hit (dt : ℝ) (fruits : List Fruit) (acc : MergeOut)
    (ij : ℕ × ℕ) (sc : ℕ) (rad : ℝ)
    (hg : (fruits.getD ij.1 default).group = (fruits.getD ij.2 default).group)
    (hov : ((fruits.getD ij.2 default).pos - (fruits.getD ij.1 default).pos).length
      < (fruits.getD ij.2 default).radius + (fruits.getD ij.1 default).radius)
    (hsc : FRUIT_SCORE.get? (fruits.getD ij.1 default).group = some sc)
    (hrad : FRUIT_RADII.get? ((fruits.getD ij.1 default).group + 1) = some rad) :
    merge_pair dt fruits acc ij = some
      ⟨acc.despawns ++ [ij.1, ij.2],
       acc.spawns ++ [⟨acc.nextId, (fruits.getD ij.1 default).group + 1,
         ((fruits.getD ij.2 default).pos + (fruits.getD ij.1 default).pos) / (2 : ℝ),
         ((fruits.getD ij.2 default).pos + (fruits.getD ij.1 default).pos) / (2 : ℝ)
           - (((fruits.getD ij.2 default).get_vel dt
               + (fruits.getD ij.1 default).get_vel dt) / (2 : ℝ)) * dt,
         0, FRAC_PI_4, FRAC_PI_4, 0, rad⟩],
       acc.scoreDelta + sc, acc.nextId + 1⟩ := by
  unfold merge_pair
  dsimp only
  rw [if_pos hg, if_pos hov, hsc, hrad]
  rfl

theorem merge_pair_panic (dt : ℝ) (fruits : List Fruit) (acc : MergeOut)
    (ij : ℕ × ℕ) (sc : ℕ)
    (hg : (fruits.getD ij.1 default).group = (fruits.getD ij.2 default).group)
    (hov : ((fruits.getD ij.2 default).pos - (fruits.getD ij.1 default).pos).length
      < (fruits.getD ij.2 default).radius + (fruits.getD ij.1 default).radius)
    (hsc : FRUIT_SCORE.get? (fruits.getD ij.1 default).group = some sc)
    (hrad : FRUIT_RADII.get? ((fruits.getD ij.1 default).group + 1) = none) :
    merge_pair dt fruits acc ij = none := by
  unfold merge_pair
  dsimp only
  rw [if_pos hg, if_pos hov, hsc, hrad]
  rfl

theorem merge_pair_miss_group (dt : ℝ) (fruits : List Fruit) (acc : MergeOut)
    (ij : ℕ × ℕ)
    (h : ¬ (fruits.getD ij.1 default).group = (fruits.getD ij.2 default).group) :
    merge_pair dt fruits acc ij = some acc := by
  unfold merge_pair
  dsimp only
  rw [if_neg h]

theorem merge_pair_miss_far (dt : ℝ) (fruits : List Fruit) (acc : MergeOut)
    (ij : ℕ × ℕ)
    (h : ¬ ((fruits.getD ij.2 default).pos - (fruits.getD ij.1 default).pos).length
      < (fruits.getD ij.2 default).radius + (fruits.getD ij.1 default).radius) :
    merge_pair dt fruits acc ij = some acc := by
  unfold merge_pair
  dsimp only
  by_cases hg : (fruits.getD ij.1 default).group = (fruits.getD ij.2 default).group
  · rw [if_pos hg, if_neg h]
  · rw [if_neg hg]

/-- C2: the claim says two overlapping top-rank bodies never merge and
fall through to ordinary collision handling.  In the code the merge
branch has no top-rank guard: for two overlapping group-10 watermelons
the branch is entered, both despawns are queued, FRUIT_SCORE[10] = 0 is
added, and then FRUIT_RADII[10+1] indexes out of bounds, so the tick
panics (modelled by none) instead of leaving the pair to
apply_collisions. -/
theorem top_rank_merge_panics :
    fruitTick (1 / 10) ⟨[melon1, melon2], 0, 2⟩ = none := by
  have hov : ((([melon1, melon2].getD (0, 1).2 default)).pos
        - (([melon1, melon2].getD (0, 1).1 default)).pos).length
      < ([melon1, melon2].getD (0, 1).2 default).radius
        + ([melon1, melon2].getD (0, 1).1 default).radius := by
    show (melon2.pos - melon1.pos).length < melon2.radius + melon1.radius
    have hsub : melon2.pos - melon1.pos = ⟨100, 0⟩ := by
      show (⟨100, 0⟩ : Vec2) - (⟨0, 0⟩ : Vec2) = ⟨100, 0⟩
      simp
    rw [hsub, Vec2.length_mk_zero_right]
    show |(100 : ℝ)| < 125 + 125
    norm_num
  have hmerge : apply_merges (1 / 10) [melon1, melon2] 2 = none := by
    unfold apply_merges
    rw [show pairList ([melon1, melon2].length) = [(0, 1)] from rfl,
      List.foldlM_cons,
      merge_pair_panic (1 / 10) [melon1, melon2] ⟨[], [], 0, 2⟩ (0, 1) 0 rfl hov
        rfl rfl]
    rfl
  unfold fruitTick
  rw [hmerge]
  rfl

theorem foldlM_merge_cons {dt : ℝ} {l : List Fruit} {acc acc2 : MergeOut}
    {ij : ℕ × ℕ} (ps : List (ℕ × ℕ)) (h : merge_pair dt l acc ij = some acc2) :
    List.foldlM (merge_pair dt l) acc (ij :: ps)
      = List.foldlM (merge_pair dt l) acc2 ps := by
  rw [List.foldlM_cons, h]
  rfl

/-- C3: the claim says a body already scheduled for despawn is skipped
as a merge candidate, so it is despawned at most once and scored at most
once.  The code keeps no pending-despawn set: with three pairwise
overlapping rank-0 fruits every one of the three pairs merges, each
fruit is despawned twice, the score rises by 3 * FRUIT_SCORE[0] instead
of once, and three replacement fruits are spawned. -/
theorem shared_body_double_merge :
    apply_merges (1 / 10) [triple0, triple1, triple2] 100 =
      some ⟨[0, 1, 0, 2, 1, 2],
        [⟨100, 1, ⟨5, 0⟩, ⟨5, 0⟩, 0, FRAC_PI_4, FRAC_PI_4, 0, 25⟩,
         ⟨101, 1, ⟨10, 0⟩, ⟨10, 0⟩, 0, FRAC_PI_4, FRAC_PI_4, 0, 25⟩,
         ⟨102, 1, ⟨15, 0⟩, ⟨15, 0⟩, 0, FRAC_PI_4, FRAC_PI_4, 0, 25⟩],
        3, 103⟩ := by
  have hov01 : (([triple0, triple1, triple2].getD 1 default).pos
        - ([triple0, triple1, triple2].getD 0 default).pos).length
      < ([triple0, triple1, triple2].getD 1 default).radius
        + ([triple0, triple1, triple2].getD 0 default).radius := by
    show (triple1.pos - triple0.pos).length < triple1.radius + triple0.radius
    have hsub : triple1.pos - triple0.pos = ⟨10, 0⟩ := by
      show (⟨10, 0⟩ : Vec2) - (⟨0, 0⟩ : Vec2) = ⟨10, 0⟩
      simp
    rw [hsub, Vec2.length_mk_zero_right]
    show |(10 : ℝ)| < 20 + 20
    norm_num
  have hov02 : (([triple0, triple1, triple2].getD 2 default).pos
        - ([triple0, triple1, triple2].getD 0 default).pos).length
      < ([triple0, triple1, triple2].getD 2 default).radius
        + ([triple0, triple1, triple2].getD 0 default).radius := by
    show (triple2.pos - triple0.pos).length < triple2.radius + triple0.radius
    have hsub : triple2.pos - triple0.pos = ⟨20, 0⟩ := by
      show (⟨20, 0⟩ : Vec2) - (⟨0, 0⟩ : Vec2) = ⟨20, 0⟩
      simp
    rw [hsub, Vec2.length_mk_zero_right]
    show |(20 : ℝ)| < 20 + 20
    norm_num
  have hov12 : (([triple0, triple1, triple2].getD 2 default).pos
        - ([triple0, triple1, triple2].getD 1 default).pos).length
      < ([triple0, triple1, triple2].getD 2 default).radius
        + ([triple0, triple1, triple2].getD 1 default).radius := by
    show (triple2.pos - triple1.pos).length < triple2.radius + triple1.radius
    have hsub : triple2.pos - triple1.pos = ⟨10, 0⟩ := by
      show (⟨20, 0⟩ : Vec2) - (⟨10, 0⟩ : Vec2) = ⟨10, 0⟩
      norm_num
    rw [hsub, Vec2.length_mk_zero_right]
    show |(10 : ℝ)| < 20 + 20
    norm_num
  unfold apply_merges
  rw [show pairList ([triple0, triple1, triple2].length)
    = [(0, 1), (0, 2), (1, 2)] from rfl]
  rw [foldlM_merge_cons _ (merge_pair_hit (1 / 10) [triple0, triple1, triple2]
    _ (0, 1) 1 25 rfl hov01 rfl rfl)]
  rw [foldlM_merge_cons _ (merge_pair_hit (1 / 10) [triple0, triple1, triple2]
    _ (0, 2) 1 25 rfl hov02 rfl rfl)]
  rw [foldlM_merge_cons _ (merge_pair_hit (1 / 10) [triple0, triple1, triple2]
    _ (1, 2) 1 25 rfl hov12 rfl rfl)]
  rw [List.foldlM_nil]
  norm_num [triple0, triple1, triple2, Fruit.get_vel, Fruit.mk.injEq,
    Vec2.mk.injEq, MergeOut.mk.injEq]

theorem Vec2.ext_xy {a b : Vec2} (hx : a.x = b.x) (hy : a.y = b.y) : a = b := by
  cases a
  cases b
  cases hx
  cases hy
  rfl

/-- C4: the claim says the collision stage guards the zero-separation
case and never divides by a zero distance.  The code's only guard is
the overlap test r_ij_mag < min_dist, which two coincident bodies pass
with r_ij_mag exactly 0, after which r_ij / r_ij_mag divides the zero
vector by zero (IEEE NaN in the f32 source). -/
theorem collision_zero_distance_unguarded :
    collision_triggered coincident coincident ∧
    (coincident.pos - coincident.pos).length = 0 := by
  have hsub : coincident.pos - coincident.pos = ⟨0, 0⟩ := by
    show (⟨7, 3⟩ : Vec2) - (⟨7, 3⟩ : Vec2) = ⟨0, 0⟩
    norm_num
  constructor
  · show (coincident.pos - coincident.pos).length
      < coincident.radius + coincident.radius
    rw [hsub, Vec2.length_mk_zero_right]
    show |(0 : ℝ)| < 20 + 20
    norm_num
  · rw [hsub, Vec2.length_mk_zero_right]
    norm_num

/-- C5 counterexample: the claimed strict stage order (GravityStage
before MergeStage before Collision, Constraint, Integration) is not a
subsequence of the registered FixedUpdate order, which puts
apply_merges before apply_gravity. -/
theorem stage_order_counterexample :
    ¬ List.Sublist
      [SystemTag.applyGravity, SystemTag.applyMerges,
       SystemTag.applyCollisions, SystemTag.applyConstraint,
       SystemTag.physicsUpdate]
      fixedUpdateSystems := by decide

/-- A tick over a single fruit: no pair loops fire, so the tick is
gravity, then wall constraint, then Verlet integration. -/
theorem fruitTick_singleton (dt : ℝ) (f : Fruit) (score nid : ℕ) :
    fruitTick dt ⟨[f], score, nid⟩ =
      some ⟨[physics_update_fruit dt (constrain_fruit dt
        ({ f with acc := ⟨f.acc.x, f.acc.y - GRAVITY⟩ }))], score, nid⟩ := by
  have hm : apply_merges dt [f] nid = some ⟨[], [], 0, nid⟩ := by
    unfold apply_merges
    rw [show pairList ([f].length) = [] from rfl, List.foldlM_nil]
    rfl
  unfold fruitTick
  rw [hm]
  rfl

theorem constrain_fruit_skip (dt : ℝ) (f : Fruit)
    (hb : ¬ f.pos.y - f.radius < BOTTOM_WALL + WALL_THICKNESS / 2)
    (hl : ¬ f.pos.x - f.radius < LEFT_WALL + WALL_THICKNESS / 2)
    (hr : ¬ RIGHT_WALL - WALL_THICKNESS / 2 < f.pos.x + f.radius) :
    constrain_fruit dt f = f := by
  unfold constrain_fruit
  dsimp only
  rw [if_neg hb, if_neg hl, if_neg hr]

theorem physics_update_fruit_nocap (dt : ℝ) (f : Fruit)
    (h : ¬ MAX_VEL ≤ (f.get_vel dt).length) :
    physics_update_fruit dt f =
      ⟨f.id, f.group, f.pos + (f.pos - f.pos_last) + f.acc * dt * dt, f.pos, 0,
       f.a_pos + (f.a_pos - f.a_pos_last) + f.a_acc * dt * dt, f.a_pos, 0,
       f.radius⟩ := by
  unfold physics_update_fruit
  dsimp only
  rw [if_neg h]

theorem physics_update_fruit_cap (dt : ℝ) (f : Fruit)
    (h : MAX_VEL ≤ (f.get_vel dt).length) :
    physics_update_fruit dt f =
      ⟨f.id, f.group,
       f.pos + (f.pos - (f.pos - (f.get_vel dt).normalize * MAX_VEL * dt))
         + f.acc * dt * dt,
       f.pos, 0,
       f.a_pos + (f.a_pos - f.a_pos_last) + f.a_acc * dt * dt, f.a_pos, 0,
       f.radius⟩ := by
  unfold physics_update_fruit
  dsimp only
  rw [if_pos h]
  rfl

/-- C6 counterexample: a body at rest handed acceleration (0, -204800)
for one tick of dt = 1/10 has post-integration derived speed 20480,
far above MAX_VEL + MAX_VEL: the cap reads the pre-step velocity, and
the acceleration contribution added afterwards is unbounded. -/
theorem speed_cap_counterexample :
    MAX_VEL + MAX_VEL
      < ((physics_update_fruit (1 / 10) hugeAccelFruit).get_vel (1 / 10)).length := by
  have hvel : hugeAccelFruit.get_vel (1 / 10) = ⟨0, 0⟩ := by
    show ((⟨0, 0⟩ : Vec2) - (⟨0, 0⟩ : Vec2)) / ((1 : ℝ) / 10) = (⟨0, 0⟩ : Vec2)
    norm_num
  have hno : ¬ MAX_VEL ≤ (hugeAccelFruit.get_vel (1 / 10)).length := by
    rw [hvel, Vec2.length_mk_zero_left]
    show ¬ (800 : ℝ) ≤ |(0 : ℝ)|
    norm_num
  have hres : physics_update_fruit (1 / 10) hugeAccelFruit
      = ⟨0, 0, ⟨0, -2048⟩, ⟨0, 0⟩, 0, 0, 0, 0, 20⟩ := by
    rw [physics_update_fruit_nocap _ _ hno]
    norm_num [hugeAccelFruit, Fruit.mk.injEq, Vec2.mk.injEq]
  rw [hres]
  have hgv : ((⟨0, 0, ⟨0, -2048⟩, ⟨0, 0⟩, 0, 0, 0, 0, 20⟩ : Fruit)).get_vel (1 / 10)
      = ⟨0, -20480⟩ := by
    show ((⟨0, -2048⟩ : Vec2) - (⟨0, 0⟩ : Vec2)) / ((1 : ℝ) / 10)
      = (⟨0, -20480⟩ : Vec2)
    norm_num
  rw [hgv, Vec2.length_mk_zero_left]
  show MAX_VEL + MAX_VEL < |(-20480 : ℝ)|
  norm_num [MAX_VEL]

/-- C6 amended: the integration-stage speed cap bounds only the
velocity carried in from the position history; the acceleration
accumulated in the current tick is integrated after the cap, so the
post-integration derived speed is bounded by MAX_VEL plus the
acceleration contribution accel.length * dt (and by MAX_VEL itself
only once a following tick with small acceleration has re-applied the
cap). -/
theorem speed_cap_amended (dt : ℝ) (hdt : 0 < dt) (f : Fruit) :
    ((physics_update_fruit dt f).get_vel dt).length
      ≤ MAX_VEL + f.acc.length * dt := by
  have hne : dt ≠ 0 := ne_of_gt hdt
  have habs : |dt| = dt := abs_of_pos hdt
  by_cases h : MAX_VEL ≤ (f.get_vel dt).length
  · rw [physics_update_fruit_cap dt f h]
    have hgv : ((⟨f.id, f.group,
        f.pos + (f.pos - (f.pos - (f.get_vel dt).normalize * MAX_VEL * dt))
          + f.acc * dt * dt,
        f.pos, 0, f.a_pos + (f.a_pos - f.a_pos_last) + f.a_acc * dt * dt,
        f.a_pos, 0, f.radius⟩ : Fruit)).get_vel dt
        = (f.get_vel dt).normalize * MAX_VEL + f.acc * dt := by
      unfold Fruit.get_vel
      dsimp only
      apply Vec2.ext_xy
      · simp only [Vec2.div_x, Vec2.add_x, Vec2.sub_x, Vec2.smul_x]
        field_simp
        ring
      · simp only [Vec2.div_y, Vec2.add_y, Vec2.sub_y, Vec2.smul_y]
        field_simp
        ring
    rw [hgv]
    have hvpos : (0 : ℝ) < (f.get_vel dt).length := by
      have h800 : (0 : ℝ) < MAX_VEL := by norm_num [MAX_VEL]
      exact lt_of_lt_of_le h800 h
    have hlen1 : ((f.get_vel dt).normalize * MAX_VEL).length = MAX_VEL := by
      rw [Vec2.length_smul]
      unfold Vec2.normalize
      rw [Vec2.length_div, abs_of_nonneg (Vec2.length_nonneg _),
        div_self (ne_of_gt hvpos)]
      show 1 * |(800 : ℝ)| = 800
      norm_num
    refine le_trans (Vec2.length_add_le _ _) ?_
    rw [hlen1, Vec2.length_smul, habs]
  · rw [physics_update_fruit_nocap dt f h]
    have hgv : ((⟨f.id, f.group, f.pos + (f.pos - f.pos_last) + f.acc * dt * dt,
        f.pos, 0, f.a_pos + (f.a_pos - f.a_pos_last) + f.a_acc * dt * dt,
        f.a_pos, 0, f.radius⟩ : Fruit)).get_vel dt
        = f.get_vel dt + f.acc * dt := by
      unfold Fruit.get_vel
      dsimp only
      apply Vec2.ext_xy
      · simp only [Vec2.div_x, Vec2.add_x, Vec2.sub_x, Vec2.smul_x]
        field_simp
        ring
      · simp only [Vec2.div_y, Vec2.add_y, Vec2.sub_y, Vec2.smul_y]
        field_simp
        ring
    rw [hgv]
    refine le_trans (Vec2.length_add_le _ _) ?_
    rw [Vec2.length_smul, habs]
    exact add_le_add (le_of_lt (lt_of_not_le h)) le_rfl

/-- C6 amended witness: the bound applied to the huge-acceleration
fruit at dt = 1/10. -/
theorem speed_cap_amended_witness :
    (0 : ℝ) < 1 / 10 ∧
    ((physics_update_fruit (1 / 10) hugeAccelFruit).get_vel (1 / 10)).length
      ≤ MAX_VEL + hugeAccelFruit.acc.length * (1 / 10) :=
  ⟨by norm_num, speed_cap_amended (1 / 10) (by norm_num) hugeAccelFruit⟩

/-- C7 counterexample: a body exactly at the bottom clamp height moving
down at derived speed 700 is not yet violating the wall test when
ConstraintStage runs, so the tick's IntegrationStage carries it through
the wall: after the tick pos.y - radius = -435 < BOTTOM_WALL.  The
claimed post-tick containment fails; the body is clamped only by the
next tick's ConstraintStage. -/
theorem wall_containment_counterexample :
    fruitTick (1 / 10) ⟨[fastFallFruit], 0, 0⟩
      = some ⟨[⟨0, 0, ⟨0, -415⟩, ⟨0, -325⟩, 0, 0, 0, 0, 20⟩], 0, 0⟩ ∧
    (⟨0, -415⟩ : Vec2).y - fastFallFruit.radius < BOTTOM_WALL := by
  constructor
  · rw [fruitTick_singleton]
    have hg : ({ fastFallFruit with
        acc := ⟨fastFallFruit.acc.x, fastFallFruit.acc.y - GRAVITY⟩ } : Fruit)
        = ⟨0, 0, ⟨0, -325⟩, ⟨0, -255⟩, ⟨0, -2000⟩, 0, 0, 0, 20⟩ := by
      norm_num [fastFallFruit, Fruit.mk.injEq, Vec2.mk.injEq, GRAVITY]
    rw [hg]
    have hcon : constrain_fruit (1 / 10)
        (⟨0, 0, ⟨0, -325⟩, ⟨0, -255⟩, ⟨0, -2000⟩, 0, 0, 0, 20⟩ : Fruit)
        = ⟨0, 0, ⟨0, -325⟩, ⟨0, -255⟩, ⟨0, -2000⟩, 0, 0, 0, 20⟩ := by
      apply constrain_fruit_skip
      · show ¬ ((-325 : ℝ) - 20 < BOTTOM_WALL + WALL_THICKNESS / 2)
        norm_num [BOTTOM_WALL, WALL_THICKNESS]
      · show ¬ ((0 : ℝ) - 20 < LEFT_WALL + WALL_THICKNESS / 2)
        norm_num [LEFT_WALL, WALL_THICKNESS]
      · show ¬ (RIGHT_WALL - WALL_THICKNESS / 2 < (0 : ℝ) + 20)
        norm_num [RIGHT_WALL, WALL_THICKNESS]
    rw [hcon]
    have hvel : (⟨0, 0, ⟨0, -325⟩, ⟨0, -255⟩, ⟨0, -2000⟩, 0, 0, 0, 20⟩ :
        Fruit).get_vel (1 / 10) = ⟨0, -700⟩ := by
      show ((⟨0, -325⟩ : Vec2) - (⟨0, -255⟩ : Vec2)) / ((1 : ℝ) / 10)
        = (⟨0, -700⟩ : Vec2)
      norm_num
    have hno : ¬ MAX_VEL ≤ ((⟨0, 0, ⟨0, -325⟩, ⟨0, -255⟩, ⟨0, -2000⟩, 0, 0, 0,
        20⟩ : Fruit).get_vel (1 / 10)).length := by
      rw [hvel, Vec2.length_mk_zero_left]
      show ¬ (800 : ℝ) ≤ |(-700 : ℝ)|
      norm_num
    rw [physics_update_fruit_nocap _ _ hno]
    norm_num [Fruit.mk.injEq, Vec2.mk.injEq]
  · show (-415 : ℝ) - 20 < BOTTOM_WALL
    norm_num [BOTTOM_WALL]

/-- C7 amended: when a body is already violating the bottom-wall test
as ConstraintStage runs (and its x is clear of the side walls), the
stage clamps pos.y to the wall surface plus half wall-thickness plus
radius (so pos.y - radius is back above BOTTOM_WALL) and rewrites the
derived velocity to (vx * LINEAR_FRICTION_CONST,
-vy * WALL_BOUNCE_CONST), walls evaluated bottom, left, right; the
post-tick position can still pass a wall when IntegrationStage moves
the body afterwards in the same tick (see the counterexample), the
clamp landing only on the next tick. -/
theorem wall_containment_amended (dt : ℝ) (hdt : dt ≠ 0) (f : Fruit)
    (hb : f.pos.y - f.radius < BOTTOM_WALL + WALL_THICKNESS / 2)
    (hl : ¬ f.pos.x - f.radius < LEFT_WALL + WALL_THICKNESS / 2)
    (hr : ¬ RIGHT_WALL - WALL_THICKNESS / 2 < f.pos.x + f.radius) :
    (constrain_fruit dt f).pos
        = ⟨f.pos.x, BOTTOM_WALL + WALL_THICKNESS / 2 + f.radius⟩
    ∧ (constrain_fruit dt f).get_vel dt
        = ⟨(f.get_vel dt).x * LINEAR_FRICTION_CONST,
           -(f.get_vel dt).y * WALL_BOUNCE_CONST⟩
    ∧ BOTTOM_WALL ≤ (constrain_fruit dt f).pos.y - f.radius := by
  have hcf : constrain_fruit dt f = Fruit.mk f.id f.group
      ⟨f.pos.x, BOTTOM_WALL + WALL_THICKNESS / 2 + f.radius⟩
      (⟨f.pos.x, BOTTOM_WALL + WALL_THICKNESS / 2 + f.radius⟩
        - (⟨(f.get_vel dt).x * LINEAR_FRICTION_CONST,
            -(f.get_vel dt).y * WALL_BOUNCE_CONST⟩ : Vec2) * dt)
      f.acc f.a_pos f.a_pos_last f.a_acc f.radius := by
    unfold constrain_fruit
    dsimp only
    rw [if_pos hb]
    dsimp only [Fruit.set_vel]
    rw [if_neg hl, if_neg hr]
  have hthick : (0 : ℝ) ≤ WALL_THICKNESS / 2 := by norm_num [WALL_THICKNESS]
  refine ⟨by rw [hcf], ?_, by rw [hcf]; dsimp only; linarith [hthick]⟩
  rw [hcf]
  unfold Fruit.get_vel
  dsimp only
  apply Vec2.ext_xy
  · simp only [Vec2.div_x, Vec2.sub_x, Vec2.smul_x]
    field_simp
  · simp only [Vec2.div_y, Vec2.sub_y, Vec2.smul_y]
    field_simp

/-- C7 amended witness: a fruit resting 50 below the bottom wall is
clamped to the wall surface and its velocity reflected (here zero). -/
theorem wall_containment_amended_witness :
    ((1 : ℝ) ≠ 0) ∧
    (bottomHitFruit.pos.y - bottomHitFruit.radius
      < BOTTOM_WALL + WALL_THICKNESS / 2) ∧
    ((constrain_fruit 1 bottomHitFruit).pos
        = ⟨bottomHitFruit.pos.x,
           BOTTOM_WALL + WALL_THICKNESS / 2 + bottomHitFruit.radius⟩
    ∧ (constrain_fruit 1 bottomHitFruit).get_vel 1
        = ⟨(bottomHitFruit.get_vel 1).x * LINEAR_FRICTION_CONST,
           -(bottomHitFruit.get_vel 1).y * WALL_BOUNCE_CONST⟩
    ∧ BOTTOM_WALL ≤ (constrain_fruit 1 bottomHitFruit).pos.y
        - bottomHitFruit.radius) := by
  have hb : bottomHitFruit.pos.y - bottomHitFruit.radius
      < BOTTOM_WALL + WALL_THICKNESS / 2 := by
    show (-400 : ℝ) - 20 < BOTTOM_WALL + WALL_THICKNESS / 2
    norm_num [BOTTOM_WALL, WALL_THICKNESS]
  exact ⟨by norm_num, hb,
    wall_containment_amended 1 (by norm_num) bottomHitFruit hb
      (by show ¬ ((0 : ℝ) - 20 < LEFT_WALL + WALL_THICKNESS / 2)
          norm_num [LEFT_WALL, WALL_THICKNESS])
      (by show ¬ (RIGHT_WALL - WALL_THICKNESS / 2 < (0 : ℝ) + 20)
          norm_num [RIGHT_WALL, WALL_THICKNESS])⟩

/-- C8 counterexample: a single body at rest at the origin with zero
acceleration, touching no wall, does not keep pos and pos_last: gravity
is applied every tick, so after one tick with dt = 1/10 the position
has dropped by GRAVITY * dt^2 = 20. -/
theorem rest_state_counterexample :
    fruitTick (1 / 10) ⟨[restFruit], 0, 0⟩
      = some ⟨[⟨0, 0, ⟨0, -20⟩, ⟨0, 0⟩, 0, 0, 0, 0, 20⟩], 0, 0⟩ ∧
    (⟨0, -20⟩ : Vec2) ≠ restFruit.pos := by
  constructor
  · rw [fruitTick_singleton]
    have hg : ({ restFruit with
        acc := ⟨restFruit.acc.x, restFruit.acc.y - GRAVITY⟩ } : Fruit)
        = ⟨0, 0, ⟨0, 0⟩, ⟨0, 0⟩, ⟨0, -2000⟩, 0, 0, 0, 20⟩ := by
      norm_num [restFruit, Fruit.mk.injEq, Vec2.mk.injEq, GRAVITY]
    rw [hg]
    have hcon : constrain_fruit (1 / 10)
        (⟨0, 0, ⟨0, 0⟩, ⟨0, 0⟩, ⟨0, -2000⟩, 0, 0, 0, 20⟩ : Fruit)
        = ⟨0, 0, ⟨0, 0⟩, ⟨0, 0⟩, ⟨0, -2000⟩, 0, 0, 0, 20⟩ := by
      apply constrain_fruit_skip
      · show ¬ ((0 : ℝ) - 20 < BOTTOM_WALL + WALL_THICKNESS / 2)
        norm_num [BOTTOM_WALL, WALL_THICKNESS]
      · show ¬ ((0 : ℝ) - 20 < LEFT_WALL + WALL_THICKNESS / 2)
        norm_num [LEFT_WALL, WALL_THICKNESS]
      · show ¬ (RIGHT_WALL - WALL_THICKNESS / 2 < (0 : ℝ) + 20)
        norm_num [RIGHT_WALL, WALL_THICKNESS]
    rw [hcon]
    have hvel : (⟨0, 0, ⟨0, 0⟩, ⟨0, 0⟩, ⟨0, -2000⟩, 0, 0, 0, 20⟩ :
        Fruit).get_vel (1 / 10) = ⟨0, 0⟩ := by
      show ((⟨0, 0⟩ : Vec2) - (⟨0, 0⟩ : Vec2)) / ((1 : ℝ) / 10) = (⟨0, 0⟩ : Vec2)
      norm_num
    have hno : ¬ MAX_VEL ≤ ((⟨0, 0, ⟨0, 0⟩, ⟨0, 0⟩, ⟨0, -2000⟩, 0, 0, 0, 20⟩ :
        Fruit).get_vel (1 / 10)).length := by
      rw [hvel, Vec2.length_mk_zero_left]
      show ¬ (800 : ℝ) ≤ |(0 : ℝ)|
      norm_num
    rw [physics_update_fruit_nocap _ _ hno]
    norm_num [Fruit.mk.injEq, Vec2.mk.injEq]
  · intro h
    norm_num [restFruit, Vec2.mk.injEq] at h

/-- C8 amended: a single resting body with zero acceleration away from
all walls does not stay at rest: one tick leaves pos_last equal to the
old pos but moves pos down by exactly GRAVITY * dt * dt, because
GravityStage runs unconditionally every tick. -/
theorem rest_state_amended (dt : ℝ) (f : Fruit) (score nid : ℕ)
    (hrest : f.pos_last = f.pos) (hacc : f.acc = ⟨0, 0⟩)
    (hb : ¬ f.pos.y - f.radius < BOTTOM_WALL + WALL_THICKNESS / 2)
    (hl : ¬ f.pos.x - f.radius < LEFT_WALL + WALL_THICKNESS / 2)
    (hr : ¬ RIGHT_WALL - WALL_THICKNESS / 2 < f.pos.x + f.radius) :
    fruitTick dt ⟨[f], score, nid⟩ =
      some ⟨[⟨f.id, f.group, ⟨f.pos.x, f.pos.y - GRAVITY * dt * dt⟩, f.pos, 0,
        f.a_pos + (f.a_pos - f.a_pos_last) + f.a_acc * dt * dt, f.a_pos, 0,
        f.radius⟩], score, nid⟩ := by
  rw [fruitTick_singleton]
  rw [constrain_fruit_skip dt ({ f with
    acc := ⟨f.acc.x, f.acc.y - GRAVITY⟩ } : Fruit) hb hl hr]
  have hvel : ({ f with acc := ⟨f.acc.x, f.acc.y - GRAVITY⟩ } :
      Fruit).get_vel dt = ⟨0, 0⟩ := by
    show (f.pos - f.pos_last) / dt = (⟨0, 0⟩ : Vec2)
    rw [hrest]
    apply Vec2.ext_xy <;> simp
  have hno : ¬ MAX_VEL ≤ (({ f with
      acc := ⟨f.acc.x, f.acc.y - GRAVITY⟩ } : Fruit).get_vel dt).length := by
    rw [hvel, Vec2.length_mk_zero_left]
    show ¬ (800 : ℝ) ≤ |(0 : ℝ)|
    norm_num
  rw [physics_update_fruit_nocap _ _ hno]
  have hpos : ({ f with acc := ⟨f.acc.x, f.acc.y - GRAVITY⟩ } : Fruit).pos
      + (({ f with acc := ⟨f.acc.x, f.acc.y - GRAVITY⟩ } : Fruit).pos
        - ({ f with acc := ⟨f.acc.x, f.acc.y - GRAVITY⟩ } : Fruit).pos_last)
      + ({ f with acc := ⟨f.acc.x, f.acc.y - GRAVITY⟩ } : Fruit).acc * dt * dt
      = (⟨f.pos.x, f.pos.y - GRAVITY * dt * dt⟩ : Vec2) := by
    apply Vec2.ext_xy
    · show f.pos.x + (f.pos.x - f.pos_last.x) + f.acc.x * dt * dt = f.pos.x
      rw [hrest, hacc]
      show f.pos.x + (f.pos.x - f.pos.x) + (0 : ℝ) * dt * dt = f.pos.x
      ring
    · show f.pos.y + (f.pos.y - f.pos_last.y) + (f.acc.y - GRAVITY) * dt * dt
        = f.pos.y - GRAVITY * dt * dt
      rw [hrest, hacc]
      show f.pos.y + (f.pos.y - f.pos.y) + ((0 : ℝ) - GRAVITY) * dt * dt
        = f.pos.y - GRAVITY * dt * dt
      ring
  rw [hpos]

/-- C8 amended witness: the resting fruit at the origin with dt = 1/10
ends the tick with pos_last at the old pos and pos 20 lower. -/
theorem rest_state_amended_witness :
    restFruit.pos_last = restFruit.pos ∧ restFruit.acc = ⟨0, 0⟩ ∧
    fruitTick (1 / 10) ⟨[restFruit], 3, 5⟩ =
      some ⟨[⟨restFruit.id, restFruit.group,
        ⟨restFruit.pos.x, restFruit.pos.y - GRAVITY * (1 / 10) * (1 / 10)⟩,
        restFruit.pos, 0,
        restFruit.a_pos + (restFruit.a_pos - restFruit.a_pos_last)
          + restFruit.a_acc * (1 / 10) * (1 / 10),
        restFruit.a_pos, 0, restFruit.radius⟩], 3, 5⟩ :=
  ⟨rfl, rfl,
    rest_state_amended (1 / 10) restFruit 3 5 rfl rfl
      (by show ¬ ((0 : ℝ) - 20 < BOTTOM_WALL + WALL_THICKNESS / 2)
          norm_num [BOTTOM_WALL, WALL_THICKNESS])
      (by show ¬ ((0 : ℝ) - 20 < LEFT_WALL + WALL_THICKNESS / 2)
          norm_num [LEFT_WALL, WALL_THICKNESS])
      (by show ¬ (RIGHT_WALL - WALL_THICKNESS / 2 < (0 : ℝ) + 20)
          norm_num [RIGHT_WALL, WALL_THICKNESS])⟩

/-- C9: for dt not 0 the derived-velocity accessors round-trip:
get_vel after set_vel dt v returns exactly v, get_vel after
inc_vel dt w returns the old derived velocity plus w, and both
accessors rewrite pos_last only, leaving pos (and every other field)
unchanged. -/
theorem vel_accessor_roundtrip (dt : ℝ) (hdt : dt ≠ 0) (f : Fruit)
    (v w : Vec2) :
    (f.set_vel dt v).get_vel dt = v
    ∧ (f.inc_vel dt w).get_vel dt = f.get_vel dt + w
    ∧ f.set_vel dt v = { f with pos_last := f.pos - v * dt }
    ∧ f.inc_vel dt w = { f with pos_last := f.pos_last - w * dt } := by
  refine ⟨?_, ?_, rfl, rfl⟩
  · unfold Fruit.get_vel Fruit.set_vel
    dsimp only
    apply Vec2.ext_xy
    · simp only [Vec2.div_x, Vec2.sub_x, Vec2.smul_x]
      field_simp
    · simp only [Vec2.div_y, Vec2.sub_y, Vec2.smul_y]
      field_simp
  · unfold Fruit.get_vel Fruit.inc_vel
    dsimp only
    apply Vec2.ext_xy
    · simp only [Vec2.div_x, Vec2.add_x, Vec2.sub_x, Vec2.smul_x]
      field_simp
      ring
    · simp only [Vec2.div_y, Vec2.add_y, Vec2.sub_y, Vec2.smul_y]
      field_simp
      ring

/-- C9 witness: the accessor laws at dt = 1 on a fruit whose pos and
pos_last differ. -/
theorem vel_accessor_roundtrip_witness :
    ((1 : ℝ) ≠ 0) ∧
    ((probeFruit.set_vel 1 ⟨2, 3⟩).get_vel 1 = (⟨2, 3⟩ : Vec2)
    ∧ (probeFruit.inc_vel 1 ⟨1, 1⟩).get_vel 1 = probeFruit.get_vel 1 + ⟨1, 1⟩
    ∧ probeFruit.set_vel 1 ⟨2, 3⟩
        = { probeFruit with pos_last := probeFruit.pos - (⟨2, 3⟩ : Vec2) * (1 : ℝ) }
    ∧ probeFruit.inc_vel 1 ⟨1, 1⟩
        = { probeFruit with
            pos_last := probeFruit.pos_last - (⟨1, 1⟩ : Vec2) * (1 : ℝ) }) :=
  ⟨by norm_num, vel_accessor_roundtrip 1 (by norm_num) probeFruit ⟨2, 3⟩ ⟨1, 1⟩⟩

/-- C10: while the spawn cooldown has not elapsed (the ticked stopwatch
does not exceed SPAWN_INTERVAL), input_handler ignores A/D entirely:
the arriving key state does not appear in the result, the x position
receives a zero movement contribution (it is only clamped), no fruit is
spawned, and the iterator state is unchanged. -/
theorem cooldown_blocks_movement (dt : ℝ) (keys : KeyInput) (reroll : ℕ)
    (py : ℝ) (sp : Spawner)
    (hcool : ¬ SPAWN_INTERVAL < sp.timer + dt) :
    input_handler dt keys reroll py sp
      = (FRUIT_RADII.get? sp.next_group).map (fun rad =>
          (⟨if sp.x < LEFT_WALL + rad + WALL_THICKNESS / 2
              then LEFT_WALL + rad + WALL_THICKNESS / 2
              else if RIGHT_WALL - rad - WALL_THICKNESS / 2 < sp.x
              then RIGHT_WALL - rad - WALL_THICKNESS / 2
              else sp.x,
            sp.timer + dt, sp.next_id, sp.next_group⟩, [])) := by
  unfold input_handler
  dsimp only
  simp only [if_neg hcool]
  have hx : sp.x + 0 * PLAYER_SPEED * dt = sp.x := by ring
  rw [hx]
  simp only [Option.bind_eq_bind, Option.some_bind]
  cases FRUIT_RADII.get? sp.next_group with
  | none => rfl
  | some rad => rfl

/-- C10 witness: all three keys held, cooldown not elapsed
(0 + 1/10 is not above SPAWN_INTERVAL = 0.5): the handler only clamps
x = 0 (which stays 0) and advances the stopwatch. -/
theorem cooldown_blocks_movement_witness :
    (¬ SPAWN_INTERVAL < idleSpawner.timer + 1 / 10) ∧
    input_handler (1 / 10) ⟨true, true, true⟩ 3 300 idleSpawner
      = (FRUIT_RADII.get? idleSpawner.next_group).map (fun rad =>
          (⟨if idleSpawner.x < LEFT_WALL + rad + WALL_THICKNESS / 2
              then LEFT_WALL + rad + WALL_THICKNESS / 2
              else if RIGHT_WALL - rad - WALL_THICKNESS / 2 < idleSpawner.x
              then RIGHT_WALL - rad - WALL_THICKNESS / 2
              else idleSpawner.x,
            idleSpawner.timer + 1 / 10, idleSpawner.next_id,
            idleSpawner.next_group⟩, [])) := by
  have hcool : ¬ SPAWN_INTERVAL < idleSpawner.timer + 1 / 10 := by
    show ¬ SPAWN_INTERVAL < (0 : ℝ) + 1 / 10
    norm_num [SPAWN_INTERVAL]
  exact ⟨hcool,
    cooldown_blocks_movement (1 / 10) ⟨true, true, true⟩ 3 300 idleSpawner hcool⟩

/-- C5 amended: the registered order runs MergeStage before
GravityStage (merge, gravity, collisions, constraint, integration is a
subsequence of the add_systems tuple), and despawn/spawn commands are
deferred to the end of the tick, so a body despawned by MergeStage
still takes part in the same tick's later stages.  Concretely, for the
vertical stack (stackA, stackB merge; stackC only overlaps stackB):
after one tick the survivor stackC sits at y = -20339/300, not at the
free-fall position y = stackC.pos.y - GRAVITY*dt^2 = -64 it would
occupy had the despawned stackB taken no part in CollisionStage; the
merge result is inserted only at end of tick and is exactly the
midpoint fruit, untouched by the tick's collision and integration. -/
theorem stage_order_amended :
    List.Sublist
      [SystemTag.applyMerges, SystemTag.applyGravity,
       SystemTag.applyCollisions, SystemTag.applyConstraint,
       SystemTag.physicsUpdate]
      fixedUpdateSystems
    ∧ fruitTick (1 / 10) ⟨[stackA, stackB, stackC], 0, 50⟩
        = some ⟨[⟨2, 1, ⟨10, -20339 / 300⟩, ⟨10, -413 / 9⟩, 0, 0, 0, 0, 25⟩,
                 ⟨50, 1, ⟨10, 5⟩, ⟨10, 5⟩, 0, FRAC_PI_4, FRAC_PI_4, 0, 25⟩],
                1, 51⟩
    ∧ (⟨10, -20339 / 300⟩ : Vec2)
        ≠ ⟨stackC.pos.x, stackC.pos.y - GRAVITY * (1 / 10) * (1 / 10)⟩ := by
  refine ⟨by decide, ?_, ?_⟩
  · have hovAB : (([stackA, stackB, stackC].getD 1 default).pos
          - ([stackA, stackB, stackC].getD 0 default).pos).length
        < ([stackA, stackB, stackC].getD 1 default).radius
          + ([stackA, stackB, stackC].getD 0 default).radius := by
      show (stackB.pos - stackA.pos).length < stackB.radius + stackA.radius
      have hsub : stackB.pos - stackA.pos = ⟨0, -10⟩ := by
        show (⟨10, 0⟩ : Vec2) - (⟨10, 10⟩ : Vec2) = ⟨0, -10⟩
        norm_num
      rw [hsub, Vec2.length_mk_zero_left]
      show |(-10 : ℝ)| < 20 + 20
      norm_num
    have hmerge : apply_merges (1 / 10) [stackA, stackB, stackC] 50
        = some ⟨[0, 1],
            [⟨50, 1, ⟨10, 5⟩, ⟨10, 5⟩, 0, FRAC_PI_4, FRAC_PI_4, 0, 25⟩],
            1, 51⟩ := by
      unfold apply_merges
      rw [show pairList ([stackA, stackB, stackC].length)
        = [(0, 1), (0, 2), (1, 2)] from rfl]
      rw [foldlM_merge_cons _ (merge_pair_hit (1 / 10) [stackA, stackB, stackC]
        _ (0, 1) 1 25 rfl hovAB rfl rfl)]
      rw [foldlM_merge_cons _ (merge_pair_miss_group (1 / 10)
        [stackA, stackB, stackC] _ (0, 2) (by decide))]
      rw [foldlM_merge_cons _ (merge_pair_miss_group (1 / 10)
        [stackA, stackB, stackC] _ (1, 2) (by decide))]
      rw [List.foldlM_nil]
      norm_num [stackA, stackB, Fruit.get_vel, Fruit.mk.injEq, Vec2.mk.injEq,
        MergeOut.mk.injEq]
    have hgrav : apply_gravity [stackA, stackB, stackC] =
        [⟨0, 0, ⟨10, 10⟩, ⟨10, 10⟩, ⟨0, -2000⟩, 0, 0, 0, 20⟩,
         ⟨1, 0, ⟨10, 0⟩, ⟨10, 0⟩, ⟨0, -2000⟩, 0, 0, 0, 20⟩,
         ⟨2, 1, ⟨10, -44⟩, ⟨10, -44⟩, ⟨0, -2000⟩, 0, 0, 0, 25⟩] := by
      norm_num [apply_gravity, stackA, stackB, stackC, GRAVITY,
        Fruit.mk.injEq, Vec2.mk.injEq]
    have hc01 : collide_pair (1 / 10)
        [⟨0, 0, ⟨10, 10⟩, ⟨10, 10⟩, ⟨0, -2000⟩, 0, 0, 0, 20⟩,
         ⟨1, 0, ⟨10, 0⟩, ⟨10, 0⟩, ⟨0, -2000⟩, 0, 0, 0, 20⟩,
         ⟨2, 1, ⟨10, -44⟩, ⟨10, -44⟩, ⟨0, -2000⟩, 0, 0, 0, 25⟩] (0, 1) =
        [⟨0, 0, ⟨10, 35 / 2⟩, ⟨10, 397 / 40⟩, ⟨0, -2000⟩, 0, 0, 0, 20⟩,
         ⟨1, 0, ⟨10, -15 / 2⟩, ⟨10, 3 / 40⟩, ⟨0, -2000⟩, 0, 0, 0, 20⟩,
         ⟨2, 1, ⟨10, -44⟩, ⟨10, -44⟩, ⟨0, -2000⟩, 0, 0, 0, 25⟩] := by
      norm_num [collide_pair, Fruit.inc_vel, Fruit.mk.injEq, Vec2.mk.injEq,
        POS_RESPONSE_CONST, VEL_RESPONSE_CONST]
    have hc02 : collide_pair (1 / 10)
        [⟨0, 0, ⟨10, 35 / 2⟩, ⟨10, 397 / 40⟩, ⟨0, -2000⟩, 0, 0, 0, 20⟩,
         ⟨1, 0, ⟨10, -15 / 2⟩, ⟨10, 3 / 40⟩, ⟨0, -2000⟩, 0, 0, 0, 20⟩,
         ⟨2, 1, ⟨10, -44⟩, ⟨10, -44⟩, ⟨0, -2000⟩, 0, 0, 0, 25⟩] (0, 2) =
        [⟨0, 0, ⟨10, 35 / 2⟩, ⟨10, 397 / 40⟩, ⟨0, -2000⟩, 0, 0, 0, 20⟩,
         ⟨1, 0, ⟨10, -15 / 2⟩, ⟨10, 3 / 40⟩, ⟨0, -2000⟩, 0, 0, 0, 20⟩,
         ⟨2, 1, ⟨10, -44⟩, ⟨10, -44⟩, ⟨0, -2000⟩, 0, 0, 0, 25⟩] := by
      have hfar : ¬ |(123 / 2 : ℝ)| < 45 := by
        rw [abs_of_pos (by norm_num : (0 : ℝ) < 123 / 2)]
        norm_num
      norm_num [collide_pair, Fruit.inc_vel, Fruit.mk.injEq, Vec2.mk.injEq,
        POS_RESPONSE_CONST, VEL_RESPONSE_CONST, hfar]
    have hc12 : collide_pair (1 / 10)
        [⟨0, 0, ⟨10, 35 / 2⟩, ⟨10, 397 / 40⟩, ⟨0, -2000⟩, 0, 0, 0, 20⟩,
         ⟨1, 0, ⟨10, -15 / 2⟩, ⟨10, 3 / 40⟩, ⟨0, -2000⟩, 0, 0, 0, 20⟩,
         ⟨2, 1, ⟨10, -44⟩, ⟨10, -44⟩, ⟨0, -2000⟩, 0, 0, 0, 25⟩] (1, 2) =
        [⟨0, 0, ⟨10, 35 / 2⟩, ⟨10, 397 / 40⟩, ⟨0, -2000⟩, 0, 0, 0, 20⟩,
         ⟨1, 0, ⟨10, -185 / 36⟩, ⟨10, 37 / 720⟩, ⟨0, -2000⟩, 0, 0, 0, 20⟩,
         ⟨2, 1, ⟨10, -413 / 9⟩, ⟨10, -39583 / 900⟩, ⟨0, -2000⟩, 0, 0, 0, 25⟩] := by
      have hnear : |(73 / 2 : ℝ)| < 45 := by
        rw [abs_of_pos (by norm_num : (0 : ℝ) < 73 / 2)]
        norm_num
      have habs : |(73 / 2 : ℝ)| = 73 / 2 :=
        abs_of_pos (by norm_num : (0 : ℝ) < 73 / 2)
      norm_num [collide_pair, Fruit.inc_vel, Fruit.mk.injEq, Vec2.mk.injEq,
        POS_RESPONSE_CONST, VEL_RESPONSE_CONST, hnear, habs]
    have hcol : apply_collisions (1 / 10)
        [⟨0, 0, ⟨10, 10⟩, ⟨10, 10⟩, ⟨0, -2000⟩, 0, 0, 0, 20⟩,
         ⟨1, 0, ⟨10, 0⟩, ⟨10, 0⟩, ⟨0, -2000⟩, 0, 0, 0, 20⟩,
         ⟨2, 1, ⟨10, -44⟩, ⟨10, -44⟩, ⟨0, -2000⟩, 0, 0, 0, 25⟩] =
        [⟨0, 0, ⟨10, 35 / 2⟩, ⟨10, 397 / 40⟩, ⟨0, -2000⟩, 0, 0, 0, 20⟩,
         ⟨1, 0, ⟨10, -185 / 36⟩, ⟨10, 37 / 720⟩, ⟨0, -2000⟩, 0, 0, 0, 20⟩,
         ⟨2, 1, ⟨10, -413 / 9⟩, ⟨10, -39583 / 900⟩, ⟨0, -2000⟩, 0, 0, 0, 25⟩] := by
      unfold apply_collisions
      rw [show pairList (([⟨0, 0, ⟨10, 10⟩, ⟨10, 10⟩, ⟨0, -2000⟩, 0, 0, 0, 20⟩,
        ⟨1, 0, ⟨10, 0⟩, ⟨10, 0⟩, ⟨0, -2000⟩, 0, 0, 0, 20⟩,
        ⟨2, 1, ⟨10, -44⟩, ⟨10, -44⟩, ⟨0, -2000⟩, 0, 0, 0, 25⟩] :
          List Fruit).length) = [(0, 1), (0, 2), (1, 2)] from rfl]
      rw [List.foldl_cons, hc01, List.foldl_cons, hc02, List.foldl_cons, hc12,
        List.foldl_nil]
    have hcon : apply_constraint (1 / 10)
        [⟨0, 0, ⟨10, 35 / 2⟩, ⟨10, 397 / 40⟩, ⟨0, -2000⟩, 0, 0, 0, 20⟩,
         ⟨1, 0, ⟨10, -185 / 36⟩, ⟨10, 37 / 720⟩, ⟨0, -2000⟩, 0, 0, 0, 20⟩,
         ⟨2, 1, ⟨10, -413 / 9⟩, ⟨10, -39583 / 900⟩, ⟨0, -2000⟩, 0, 0, 0, 25⟩] =
        [⟨0, 0, ⟨10, 35 / 2⟩, ⟨10, 397 / 40⟩, ⟨0, -2000⟩, 0, 0, 0, 20⟩,
         ⟨1, 0, ⟨10, -185 / 36⟩, ⟨10, 37 / 720⟩, ⟨0, -2000⟩, 0, 0, 0, 20⟩,
         ⟨2, 1, ⟨10, -413 / 9⟩, ⟨10, -39583 / 900⟩, ⟨0, -2000⟩, 0, 0, 0, 25⟩] := by
      unfold apply_constraint
      rw [List.map_cons, List.map_cons, List.map_cons, List.map_nil]
      rw [constrain_fruit_skip _ _
        (by show ¬ ((35 / 2 : ℝ) - 20 < BOTTOM_WALL + WALL_THICKNESS / 2)
            norm_num [BOTTOM_WALL, WALL_THICKNESS])
        (by show ¬ ((10 : ℝ) - 20 < LEFT_WALL + WALL_THICKNESS / 2)
            norm_num [LEFT_WALL, WALL_THICKNESS])
        (by show ¬ (RIGHT_WALL - WALL_THICKNESS / 2 < (10 : ℝ) + 20)
            norm_num [RIGHT_WALL, WALL_THICKNESS])]
      rw [constrain_fruit_skip _ _
        (by show ¬ ((-185 / 36 : ℝ) - 20 < BOTTOM_WALL + WALL_THICKNESS / 2)
            norm_num [BOTTOM_WALL, WALL_THICKNESS])
        (by show ¬ ((10 : ℝ) - 20 < LEFT_WALL + WALL_THICKNESS / 2)
            norm_num [LEFT_WALL, WALL_THICKNESS])
        (by show ¬ (RIGHT_WALL - WALL_THICKNESS / 2 < (10 : ℝ) + 20)
            norm_num [RIGHT_WALL, WALL_THICKNESS])]
      rw [constrain_fruit_skip _ _
        (by show ¬ ((-413 / 9 : ℝ) - 25 < BOTTOM_WALL + WALL_THICKNESS / 2)
            norm_num [BOTTOM_WALL, WALL_THICKNESS])
        (by show ¬ ((10 : ℝ) - 25 < LEFT_WALL + WALL_THICKNESS / 2)
            norm_num [LEFT_WALL, WALL_THICKNESS])
        (by show ¬ (RIGHT_WALL - WALL_THICKNESS / 2 < (10 : ℝ) + 25)
            norm_num [RIGHT_WALL, WALL_THICKNESS])]
    have hphys : physics_update (1 / 10)
        [⟨0, 0, ⟨10, 35 / 2⟩, ⟨10, 397 / 40⟩, ⟨0, -2000⟩, 0, 0, 0, 20⟩,
         ⟨1, 0, ⟨10, -185 / 36⟩, ⟨10, 37 / 720⟩, ⟨0, -2000⟩, 0, 0, 0, 20⟩,
         ⟨2, 1, ⟨10, -413 / 9⟩, ⟨10, -39583 / 900⟩, ⟨0, -2000⟩, 0, 0, 0, 25⟩] =
        [⟨0, 0, ⟨10, 203 / 40⟩, ⟨10, 35 / 2⟩, 0, 0, 0, 0, 20⟩,
         ⟨1, 0, ⟨10, -7279 / 240⟩, ⟨10, -185 / 36⟩, 0, 0, 0, 0, 20⟩,
         ⟨2, 1, ⟨10, -20339 / 300⟩, ⟨10, -413 / 9⟩, 0, 0, 0, 0, 25⟩] := by
      unfold physics_update
      rw [List.map_cons, List.map_cons, List.map_cons, List.map_nil]
      rw [physics_update_fruit_nocap _ _
        (by have hv : ((⟨0, 0, ⟨10, 35 / 2⟩, ⟨10, 397 / 40⟩, ⟨0, -2000⟩, 0, 0,
              0, 20⟩ : Fruit)).get_vel (1 / 10) = ⟨0, 303 / 4⟩ := by
              show ((⟨10, 35 / 2⟩ : Vec2) - (⟨10, 397 / 40⟩ : Vec2))
                / ((1 : ℝ) / 10) = (⟨0, 303 / 4⟩ : Vec2)
              norm_num
            rw [hv, Vec2.length_mk_zero_left]
            show ¬ (800 : ℝ) ≤ |(303 / 4 : ℝ)|
            rw [abs_of_pos (by norm_num : (0 : ℝ) < 303 / 4)]
            norm_num)]
      rw [physics_update_fruit_nocap _ _
        (by have hv : ((⟨1, 0, ⟨10, -185 / 36⟩, ⟨10, 37 / 720⟩, ⟨0, -2000⟩, 0,
              0, 0, 20⟩ : Fruit)).get_vel (1 / 10) = ⟨0, -3737 / 72⟩ := by
              show ((⟨10, -185 / 36⟩ : Vec2) - (⟨10, 37 / 720⟩ : Vec2))
                / ((1 : ℝ) / 10) = (⟨0, -3737 / 72⟩ : Vec2)
              norm_num
            rw [hv, Vec2.length_mk_zero_left]
            show ¬ (800 : ℝ) ≤ |(-3737 / 72 : ℝ)|
            rw [show (-3737 / 72 : ℝ) = -(3737 / 72) by norm_num, abs_neg,
              abs_of_pos (by norm_num : (0 : ℝ) < 3737 / 72)]
            norm_num)]
      rw [physics_update_fruit_nocap _ _
        (by have hv : ((⟨2, 1, ⟨10, -413 / 9⟩, ⟨10, -39583 / 900⟩, ⟨0, -2000⟩,
              0, 0, 0, 25⟩ : Fruit)).get_vel (1 / 10) = ⟨0, -1717 / 90⟩ := by
              show ((⟨10, -413 / 9⟩ : Vec2) - (⟨10, -39583 / 900⟩ : Vec2))
                / ((1 : ℝ) / 10) = (⟨0, -1717 / 90⟩ : Vec2)
              norm_num
            rw [hv, Vec2.length_mk_zero_left]
            show ¬ (800 : ℝ) ≤ |(-1717 / 90 : ℝ)|
            rw [show (-1717 / 90 : ℝ) = -(1717 / 90) by norm_num, abs_neg,
              abs_of_pos (by norm_num : (0 : ℝ) < 1717 / 90)]
            norm_num)]
      norm_num [Fruit.mk.injEq, Vec2.mk.injEq]
    unfold fruitTick
    rw [hmerge]
    dsimp only [Option.bind]
    rw [hgrav, hcol, hcon, hphys]
    rfl
  · intro h
    rw [Vec2.mk.injEq] at h
    have hy : (-20339 / 300 : ℝ) = stackC.pos.y - GRAVITY * (1 / 10) * (1 / 10) :=
      h.2
    rw [show stackC.pos.y = (-44 : ℝ) from rfl] at hy
    norm_num [GRAVITY] at hy
